import Mathlib

/-!
# Verification of the `migo` media-engine against its specification

Shallow embedding of the screen-share media engine
(`packages/media-engine/src`): the per-frame encode-publish step
(`engine.rs`), encoder selection (`encode/mft.rs`), the encode pipeline
dimensions (`encode/pipeline.rs`), the transport thread's join wait and
event dispatch (`transport/livekit.rs`), and the signaling URL builder
(`transport/signal.rs`).  Machine integers are modelled as `Nat` with
explicit `% 2^32` where u32 wraparound matters.
-/

namespace Migo

/-- Truncation to 32 bits, the semantics of a Rust `u32` value / `as u32` cast. -/
def u32 (n : Nat) : Nat := n % 2 ^ 32

/-- `engine.rs:97-98`: `let width = (first_frame.width + 1) & !1;` on `u32`.
`!1u32 = 0xFFFF_FFFE = 2^32 - 2`. -/
def roundUpEven (w : Nat) : Nat := u32 (w + 1) &&& (2 ^ 32 - 2)

/-- Bit-level fact: masking a 32-bit value with `!1` clears the low bit. -/
theorem land_not_one_eq (x : Nat) (hx : x < 2 ^ 32) :
    x &&& (2 ^ 32 - 2) = x - x % 2 := by
  have h2 : x - x % 2 = 2 * (x / 2) := by omega
  rw [h2]
  apply Nat.eq_of_testBit_eq
  intro i
  rw [Nat.testBit_and]
  have hmask : (2 ^ 32 - 2).testBit i = (decide (i < 32) && !Nat.testBit 1 i) := by
    have h1 : (1 : Nat) < 2 ^ 32 := by norm_num
    have := Nat.testBit_two_pow_sub_succ h1 i
    simpa using this
  rw [hmask]
  cases i with
  | zero =>
      simp [Nat.testBit_zero, Nat.mul_mod_right]
  | succ j =>
      have h1 : Nat.testBit 1 (j + 1) = false := by
        rw [Nat.testBit_succ]; norm_num
      have h2m : (2 * (x / 2)).testBit (j + 1) = (x / 2).testBit j := by
        rw [Nat.testBit_succ, Nat.mul_div_cancel_left _ (by norm_num : 0 < 2)]
      have h3 : x.testBit (j + 1) = (x / 2).testBit j := Nat.testBit_succ x j
      rw [h1, h2m, h3]
      by_cases hj : j + 1 < 32
      · simp [hj]
      · have hxd : (x / 2).testBit j = false := by
          rw [← Nat.testBit_succ]
          apply Nat.testBit_lt_two_pow
          calc x < 2 ^ 32 := hx
            _ ≤ 2 ^ (j + 1) := Nat.pow_le_pow_right (by norm_num) (by omega)
        simp [hj, hxd]

/-- `roundUpEven` computes the value the spec calls `round_up_even`:
identity on even numbers, `w + 1` on odd ones (absent u32 overflow). -/
theorem roundUpEven_eq (w : Nat) (hw : w + 1 < 2 ^ 32) :
    roundUpEven w = if w % 2 = 0 then w else w + 1 := by
  unfold roundUpEven u32
  rw [Nat.mod_eq_of_lt hw, land_not_one_eq _ hw]
  rcases Nat.even_or_odd w with h | h
  · have : w % 2 = 0 := Nat.even_iff.mp h
    simp [this]; omega
  · have : w % 2 = 1 := Nat.odd_iff.mp h
    simp [this]; omega

/-- `roundUpEven` always produces an even number (absent u32 overflow). -/
theorem roundUpEven_even (w : Nat) (hw : w + 1 < 2 ^ 32) :
    roundUpEven w % 2 = 0 := by
  rw [roundUpEven_eq w hw]
  rcases Nat.even_or_odd w with h | h
  · have : w % 2 = 0 := Nat.even_iff.mp h
    simp [this]
  · have h1 : w % 2 = 1 := Nat.odd_iff.mp h
    simp [h1]; omega

/-! ## Encode-publish loop state (`engine.rs`, `encode_publish_thread`) -/

/-- `encode/mft.rs`: `EncodedPacket { data, timestamp, duration, keyframe }`.
Byte buffers are modelled as lists of byte values. -/
structure EncodedPacket where
  data : List Nat
  timestamp : Int
  duration : Int
  keyframe : Bool
  deriving Repr, DecidableEq

/-- One `transport.send_video(bytes, ts, keyframe)` call made by
`process_frame` (`engine.rs:229`). -/
structure Submission where
  data : List Nat
  rtpTs : Nat
  keyframe : Bool
  deriving Repr, DecidableEq

/-- The mutable locals of `encode_publish_thread` threaded through
`process_frame` (`engine.rs:204-209`): the counters and the
pending force-keyframe flag. -/
structure EpState where
  totalFrames : Nat
  totalBytes : Nat
  intervalFrames : Nat
  intervalBytes : Nat
  forceNextKeyframe : Bool
  deriving Repr, DecidableEq

/-- Calls `process_frame` makes into the encode pipeline, in order. -/
inductive EncoderCall where
  | forceKeyframe
  | encode
  deriving Repr, DecidableEq

/-- `engine.rs:228`: `(*total_frames as u32).wrapping_mul(90_000 / config.fps.max(1))`.
The `u64` frame counter is truncated to 32 bits, multiplied by the
truncating division `90000 / fps` (with the `max(1)` guard), wrapping. -/
def rtpTimestamp (fps totalFrames : Nat) : Nat :=
  u32 (u32 totalFrames * (90000 / max fps 1))

/-- `engine.rs:212-240` (`process_frame` closure): issue the pending
force-keyframe, encode the frame, submit every returned packet with the
frame's RTP timestamp, then advance the frame counters once.  The result
of `pipeline.encode_frame` is an input (the encoder is external hardware);
the function returns the updated state, the submissions made to the
transport, and the trace of calls into the encode pipeline. -/
def processFrame (fps : Nat) (encodeResult : Except String (List EncodedPacket))
    (s : EpState) : EpState × List Submission × List EncoderCall :=
  let calls := if s.forceNextKeyframe then [EncoderCall.forceKeyframe] else []
  let s1 : EpState := { s with forceNextKeyframe := false }
  match encodeResult with
  | .ok packets =>
      let subs := packets.map fun p =>
        { data := p.data
          rtpTs := rtpTimestamp fps s1.totalFrames
          keyframe := p.keyframe : Submission }
      let bytes := (packets.map fun p => p.data.length).sum
      ({ s1 with
          totalFrames := s1.totalFrames + 1
          intervalFrames := s1.intervalFrames + 1
          totalBytes := s1.totalBytes + bytes
          intervalBytes := s1.intervalBytes + bytes },
       subs, calls ++ [EncoderCall.encode])
  | .error _ => (s1, [], calls ++ [EncoderCall.encode])

/-- `engine.rs:63-66`: commands sent from the façade to the engine thread. -/
inductive EngineCommand where
  | forceKeyframe
  | stop
  deriving Repr, DecidableEq

/-- The loop-head state of `encode_publish_thread`: the `process_frame`
locals plus the shared atomic stop flag. -/
structure LoopState where
  ep : EpState
  stopFlag : Bool
  deriving Repr, DecidableEq

/-- `engine.rs:265-272`: the non-blocking command drain.
`ForceKeyframe` sets the pending flag; `Stop` stores `true` into the
stop flag. -/
def applyCommand (s : LoopState) (c : EngineCommand) : LoopState :=
  match c with
  | .forceKeyframe => { s with ep := { s.ep with forceNextKeyframe := true } }
  | .stop => { s with stopFlag := true }

/-- Drain a batch of queued commands in order (`while let Ok(cmd) = cmd_rx.try_recv()`). -/
def applyCommands (s : LoopState) (cs : List EngineCommand) : LoopState :=
  cs.foldl applyCommand s

/-! ## Stop flag (`engine.rs`, `lib.rs`) -/

/-- The three places that store into the engine session's `stop_flag`
(an atomic boolean): `MediaEngine::stop` (`engine.rs:165`), the `Stop`
command handler in the loop (`engine.rs:269`), and the
capture-channel-disconnected branch of the drain (`engine.rs:295`). -/
inductive StopFlagWrite where
  | engineStop
  | commandStop
  | captureDisconnected
  deriving Repr, DecidableEq

/-- The value each write site stores.  Every site in the source executes
`stop_flag.store(true, Ordering::Relaxed)`. -/
def stopFlagStoredValue : StopFlagWrite → Bool
  | .engineStop => true
  | .commandStop => true
  | .captureDisconnected => true

/-- Effect of one store on the flag. -/
def applyStopFlagWrite (_flag : Bool) (w : StopFlagWrite) : Bool :=
  stopFlagStoredValue w

/-- `engine.rs:170-172`: `is_running` returns the negation of the stop flag. -/
def isRunning (stopFlag : Bool) : Bool := !stopFlag

/-- `lib.rs:226-230`: `is_screen_share_running` — `false` when no engine is
installed in the `ENGINE` slot, else the engine's `is_running`. -/
def is_screen_share_running (engine : Option Bool) : Bool :=
  match engine with
  | none => false
  | some flag => isRunning flag

/-! ## Callback trace of the encode-publish thread (`engine.rs:175-352`) -/

/-- The host-visible callbacks the encode-publish thread can invoke. -/
inductive CallbackEvent where
  | onError (msg : String)
  | onStats
  | onStopped
  deriving Repr, DecidableEq

/-- `engine.rs:194-202` and `engine.rs:326-352`: the sequence of callback
invocations made by `encode_publish_thread` over its lifetime, as a
function of whether `EncodePipeline::new` succeeded and of how many
one-second stats intervals elapsed before loop exit.  On pipeline-creation
failure the thread invokes `on_error` and returns immediately; otherwise
it runs the loop (emitting `on_stats` periodically) and on loop exit
flushes, stops the transport, and invokes `on_stopped`. -/
def encodePublishCallbackTrace (encoderInit : Except String Unit)
    (statsEmissions : Nat) : List CallbackEvent :=
  match encoderInit with
  | .error e => [CallbackEvent.onError ("Failed to create encoder: " ++ e)]
  | .ok _ =>
      List.replicate statsEmissions CallbackEvent.onStats ++ [CallbackEvent.onStopped]

/-! ## Transport thread (`transport/livekit.rs`) -/

/-- The fields of `livekit_protocol::JoinResponse` the engine reads. -/
structure JoinResponse where
  room : String
  participant : String
  deriving Repr, DecidableEq

/-- `transport/signal.rs:11-18`: events delivered from the signaling task. -/
inductive SignalEvent where
  | join (j : JoinResponse)
  | offer (sdp : String)
  | answer (sdp : String)
  | trickle (candidateInit : String) (target : Int)
  | trackPublished (cid : String)
  | leave
  deriving Repr, DecidableEq

/-- `transport/livekit.rs:131-147`: the join wait at the head of
`transport_thread`.  The loop receives signal events, skipping every
non-`Join` event, and errors only when the channel closes (`recv`
returns `None`, modelled as the end of the list).  Each event carries its
arrival time (milliseconds since the channel opened) so that temporal
properties can be stated; the source reads no clock in this loop, so the
timestamps are ignored. -/
def awaitJoin : List (Nat × SignalEvent) → Except String JoinResponse
  | [] => .error "Signal closed before join"
  | (_, .join j) :: _ => .ok j
  | _ :: rest => awaitJoin rest

/-- The first `Join` event of a signal stream, if any (characterization
helper for `awaitJoin`). -/
def firstJoin : List (Nat × SignalEvent) → Option JoinResponse
  | [] => none
  | (_, .join j) :: _ => some j
  | _ :: rest => firstJoin rest

/-- ICE connection states the poll loop distinguishes (`livekit.rs:342-349`). -/
inductive IceState where
  | new
  | checking
  | connected
  | disconnected
  deriving Repr, DecidableEq

/-- `str0m` driver events dispatched by the poll loop (`livekit.rs:339-356`). -/
inductive RtcEvent where
  | iceConnectionStateChange (st : IceState)
  | keyframeRequest (mid : Nat)
  | other
  deriving Repr, DecidableEq

/-- The transport-thread state the event dispatch can touch: the
`connected` local and the transport stop flag. -/
structure PollState where
  connected : Bool
  stopFlag : Bool
  deriving Repr, DecidableEq

/-- `transport/livekit.rs:339-356`: dispatch of one driver `Event` output.
Returns the updated state together with the engine commands forwarded to
the encode-publish thread.  ICE `Connected`/`Disconnected` update
`connected` (and the stop flag); a `KeyframeRequest` is logged at debug
level and nothing else happens (`livekit.rs:351-354` — the thread holds
no channel to the engine, so no command can be forwarded). -/
def dispatchRtcEvent (s : PollState) (e : RtcEvent) : PollState × List EngineCommand :=
  match e with
  | .iceConnectionStateChange .connected => ({ s with connected := true }, [])
  | .iceConnectionStateChange .disconnected =>
      ({ s with connected := false, stopFlag := true }, [])
  | .iceConnectionStateChange _ => (s, [])
  | .keyframeRequest _ => (s, [])
  | .other => (s, [])

/-! ## Encoder selection (`encode/mft.rs`, `create_encoder`) -/

/-- The two `MFTEnumEx` flag sets used by `create_encoder`
(`mft.rs:331-338`): `MFT_ENUM_FLAG_SYNCMFT | SORTANDFILTER` and
`MFT_ENUM_FLAG_HARDWARE | ASYNCMFT | SORTANDFILTER`. -/
inductive MftEnumFlags where
  | syncSoftware
  | hardwareAsync
  deriving Repr, DecidableEq

/-- A registered transform candidate as the selection loop sees it:
whether `ActivateObject::<IMFTransform>()` succeeds, and whether the
activated transform reports the `MF_TRANSFORM_ASYNC` attribute. -/
structure MftCandidate where
  activates : Bool
  isAsync : Bool
  deriving Repr, DecidableEq

/-- `mft.rs:330-338`: the flag sets tried, in order.  With
`prefer_hardware = true` the source comment reads "Two-pass enumeration:
sync first (simpler, no async unlock needed), then hardware async"; with
`prefer_hardware = false` only the sync set is tried. -/
def encoderFlagSets (preferHardware : Bool) : List MftEnumFlags :=
  if preferHardware then [.syncSoftware, .hardwareAsync] else [.syncSoftware]

/-- `mft.rs:361-382`: within one enumeration, the first candidate whose
`ActivateObject` succeeds is taken. -/
def firstActivating : List MftCandidate → Option MftCandidate
  | [] => none
  | c :: rest => if c.activates then some c else firstActivating rest

/-- `mft.rs:343-395`: iterate the flag sets in order; the first
enumeration that yields an activating candidate wins and later flag sets
are not tried (`if transform.is_some() { break; }`). -/
def selectFromFlagSets (enum : MftEnumFlags → List MftCandidate) :
    List MftEnumFlags → Option MftCandidate
  | [] => none
  | fs :: rest =>
      match firstActivating (enum fs) with
      | some c => some c
      | none => selectFromFlagSets enum rest

/-- The transform `create_encoder` activates, as a function of
`prefer_hardware` and of the registry contents (`enum` gives the
candidates each `MFTEnumEx` call returns, in enumeration order). -/
def create_encoder_select (preferHardware : Bool)
    (enum : MftEnumFlags → List MftCandidate) : Option MftCandidate :=
  selectFromFlagSets enum (encoderFlagSets preferHardware)

/-- Modelled from the spec: claim C2's selection order — "filtering first
for hardware async transforms and then for software sync transforms"
when `prefer_hardware = true`.  For comparison with `encoderFlagSets`. -/
def specEncoderFlagSets (preferHardware : Bool) : List MftEnumFlags :=
  if preferHardware then [.hardwareAsync, .syncSoftware] else [.syncSoftware]

/-- Modelled from the spec: the selection the claim describes, hardware
async tried first. -/
def specSelectEncoder (preferHardware : Bool)
    (enum : MftEnumFlags → List MftCandidate) : Option MftCandidate :=
  selectFromFlagSets enum (specEncoderFlagSets preferHardware)

/-- A registry in which both a software sync encoder and a hardware async
encoder are present and activate successfully. -/
def enumBoth : MftEnumFlags → List MftCandidate
  | .syncSoftware => [{ activates := true, isAsync := false }]
  | .hardwareAsync => [{ activates := true, isAsync := true }]

/-! ## Signaling URL builder (`transport/signal.rs`, `build_ws_url`) -/

/-- The parts of a parsed URL that `build_ws_url` reads or writes. -/
structure ParsedUrl where
  scheme : String
  host : String
  path : String
  query : List (String × String)
  deriving Repr, DecidableEq

/-- `signal.rs:110-113`: the scheme rewrite —
`match url.scheme() { "https" | "wss" => set_scheme("wss"), _ => set_scheme("ws") }`. -/
def mapWsScheme (scheme : String) : String :=
  if scheme = "https" ∨ scheme = "wss" then "wss" else "ws"

/-- `signal.rs:116-122`: the query pairs appended, in order. -/
def wsQueryParams (version token : String) : List (String × String) :=
  [("sdk", "rust-media-engine"), ("protocol", "16"), ("version", version),
   ("auto_subscribe", "1"), ("adaptive_stream", "0"), ("access_token", token)]

/-- `signal.rs:105-125` (`build_ws_url`): rewrite the scheme, set the path
to `/rtc`, and append the query pairs to the URL's existing query
(`query_pairs_mut().append_pair(...)` appends). -/
def build_ws_url (url : ParsedUrl) (version token : String) : ParsedUrl :=
  let url1 : ParsedUrl := { url with scheme := mapWsScheme url.scheme }
  let url2 : ParsedUrl := { url1 with path := "/rtc" }
  { url2 with query := url2.query ++ wsQueryParams version token }

/-- Modelled from the spec: claim C8's scheme mapping — "https to wss and
any other scheme (including ws and wss) to ws". -/
def specMapWsScheme (scheme : String) : String :=
  if scheme = "https" then "wss" else "ws"

/-! ## Encode pipeline dimensions (`encode/pipeline.rs`, `engine.rs:96-98`) -/

/-- `encode/config.rs`: `EncoderConfig`. -/
structure EncoderConfig where
  width : Nat
  height : Nat
  fps : Nat
  bitrate : Nat
  preferHardware : Bool
  deriving Repr, DecidableEq

/-- `pipeline.rs:14-25`: the pipeline fields the claims read — the
configuration (fixed at construction; the BGRA and NV12 textures are
created once from `config.width`/`config.height`) and the frame counter. -/
structure EncodePipeline where
  config : EncoderConfig
  frameCount : Nat
  deriving Repr, DecidableEq

/-- `pipeline.rs:28-57` (`EncodePipeline::new`): textures are allocated
from the configured dimensions, `frame_count` starts at 0. -/
def EncodePipeline.new (config : EncoderConfig) : EncodePipeline :=
  { config := config, frameCount := 0 }

/-- `pipeline.rs:61-102` (`encode_frame`): uploads into the pre-allocated
textures, converts, encodes; the configuration (hence the NV12 target
dimensions) is never written, and `frame_count` advances by one. -/
def encodeFrameStep (p : EncodePipeline) : EncodePipeline :=
  { p with frameCount := p.frameCount + 1 }

/-- `engine.rs:96-98`: the session dimensions negotiated from the first
captured frame — both even-rounded. -/
def sessionDims (w h : Nat) : Nat × Nat := (roundUpEven w, roundUpEven h)

/-! ## Helper lemmas -/

/-- A command batch never clears an already-pending force-keyframe flag. -/
theorem applyCommands_force_flag_persists (cmds : List EngineCommand) (s : LoopState)
    (h : s.ep.forceNextKeyframe = true) :
    (applyCommands s cmds).ep.forceNextKeyframe = true := by
  induction cmds generalizing s with
  | nil => exact h
  | cons c rest ih =>
      show (applyCommands (applyCommand s c) rest).ep.forceNextKeyframe = true
      apply ih
      cases c <;> simp [applyCommand, h]

/-- Draining a batch that contains at least one `ForceKeyframe` command
leaves the pending flag set. -/
theorem applyCommands_sets_force_flag (cmds : List EngineCommand) (s : LoopState)
    (hmem : EngineCommand.forceKeyframe ∈ cmds) :
    (applyCommands s cmds).ep.forceNextKeyframe = true := by
  induction cmds generalizing s with
  | nil => cases hmem
  | cons c rest ih =>
      rcases List.mem_cons.mp hmem with h | h
      · subst h
        show (applyCommands (applyCommand s EngineCommand.forceKeyframe) rest).ep.forceNextKeyframe
            = true
        apply applyCommands_force_flag_persists
        simp [applyCommand]
      · exact ih (applyCommand s c) h

/-- With the pending flag set, one frame issues exactly the call sequence
force-keyframe-then-encode, and clears the flag. -/
theorem processFrame_flag_true_calls (fps : Nat) (res : Except String (List EncodedPacket))
    (s : EpState) (h : s.forceNextKeyframe = true) :
    (processFrame fps res s).2.2 = [EncoderCall.forceKeyframe, EncoderCall.encode]
    ∧ (processFrame fps res s).1.forceNextKeyframe = false := by
  cases res <;> simp [processFrame, h]

/-- Any chain of stop-flag stores starting from a raised flag leaves it raised. -/
theorem stopFlag_foldl_true (ws : List StopFlagWrite) (flag : Bool) (h : flag = true) :
    ws.foldl applyStopFlagWrite flag = true := by
  induction ws generalizing flag with
  | nil => exact h
  | cons w rest ih =>
      show rest.foldl applyStopFlagWrite (applyStopFlagWrite flag w) = true
      exact ih _ (by cases w <;> rfl)

/-- The first activating candidate of a concatenation. -/
theorem firstActivating_append (a b : List MftCandidate) :
    firstActivating (a ++ b)
      = match firstActivating a with
        | some c => some c
        | none => firstActivating b := by
  induction a with
  | nil => rfl
  | cons c rest ih =>
      by_cases h : c.activates = true
      · simp [firstActivating, h]
      · simp [firstActivating, h, ih]

/-- The pipeline configuration is invariant under any number of encode steps. -/
theorem encodeFrameStep_iterate_config (n : Nat) (p : EncodePipeline) :
    (encodeFrameStep^[n] p).config = p.config := by
  induction n generalizing p with
  | zero => rfl
  | succ k ih =>
      rw [Function.iterate_succ_apply]
      exact ih (encodeFrameStep p)

/-! ## Concrete values used by witnesses and counterexamples -/

/-- A concrete Annex-B keyframe packet. -/
def pkt0 : EncodedPacket :=
  { data := [0, 0, 0, 1, 103, 66, 0, 40], timestamp := 0, duration := 333333, keyframe := true }

/-- A loop state after two successfully encoded frames. -/
def epState2 : EpState :=
  { totalFrames := 2, totalBytes := 512, intervalFrames := 2, intervalBytes := 512,
    forceNextKeyframe := false }

/-! ## Claim theorems -/

/-- Claim C1: for every session with configured fps (at least 1, per the
config contract) and every frame with 0-based frame index n, every encoded
unit produced from that frame is submitted to the transport with RTP
timestamp n * (90000 / fps) computed with u32 wraparound, and the frame
index is incremented once per encoded frame, not once per unit (the
increment is independent of how many packets the encoder returned). -/
theorem rtp_timestamp_wire_formula (fps : Nat) (hfps : 1 ≤ fps) (s : EpState)
    (packets : List EncodedPacket) :
    (∀ sub ∈ (processFrame fps (.ok packets) s).2.1,
        sub.rtpTs = s.totalFrames * (90000 / fps) % 2 ^ 32)
    ∧ (processFrame fps (.ok packets) s).1.totalFrames = s.totalFrames + 1 := by
  constructor
  · intro sub hsub
    simp only [processFrame, List.mem_map] at hsub
    obtain ⟨p, hp, rfl⟩ := hsub
    show rtpTimestamp fps s.totalFrames = s.totalFrames * (90000 / fps) % 2 ^ 32
    unfold rtpTimestamp u32
    rw [Nat.max_eq_left hfps, Nat.mod_mul_mod]
  · simp [processFrame]

/-- Witness for C1 at fps 30, frame index 2, one returned packet. -/
theorem rtp_timestamp_wire_formula_witness :
    1 ≤ 30
    ∧ ((∀ sub ∈ (processFrame 30 (.ok [pkt0]) epState2).2.1,
          sub.rtpTs = epState2.totalFrames * (90000 / 30) % 2 ^ 32)
       ∧ (processFrame 30 (.ok [pkt0]) epState2).1.totalFrames = epState2.totalFrames + 1) :=
  ⟨by decide, rtp_timestamp_wire_formula 30 (by decide) epState2 [pkt0]⟩

/-- Claim C9: within a single per-frame step, every packet returned by the
encode call is submitted with the identical RTP timestamp (the one derived
from the current frame index), and the frame counter advances exactly once
per successfully encoded frame even when the encoder returns zero packets
(and not at all when the encode call fails). -/
theorem frame_submissions_uniform_timestamp (fps : Nat) (s : EpState)
    (res : Except String (List EncodedPacket)) :
    (∀ sub ∈ (processFrame fps res s).2.1, sub.rtpTs = rtpTimestamp fps s.totalFrames)
    ∧ (processFrame fps res s).1.totalFrames
        = s.totalFrames + (match res with | .ok _ => 1 | .error _ => 0) := by
  cases res with
  | ok packets =>
      constructor
      · intro sub hsub
        simp only [processFrame, List.mem_map] at hsub
        obtain ⟨p, hp, rfl⟩ := hsub
        rfl
      · simp [processFrame]
  | error e =>
      constructor
      · intro sub hsub
        simp [processFrame] at hsub
      · simp [processFrame]

/-- Witness for C9: zero-packet success still advances the counter, and a
failed encode does not. -/
theorem frame_submissions_uniform_timestamp_witness :
    ((∀ sub ∈ (processFrame 60 (.ok []) epState2).2.1,
        sub.rtpTs = rtpTimestamp 60 epState2.totalFrames)
     ∧ (processFrame 60 (.ok []) epState2).1.totalFrames
        = epState2.totalFrames + (match (Except.ok [] : Except String (List EncodedPacket)) with
            | .ok _ => 1 | .error _ => 0)) :=
  frame_submissions_uniform_timestamp 60 epState2 (.ok [])

/-- Claim C2 (counterexample): on a registry that offers both an
activating software sync encoder and an activating hardware async
encoder, `create_encoder` with `prefer_hardware = true` activates the
software sync transform, not the hardware async one the claim says is
filtered for first — the source enumerates sync software first and
hardware async second. -/
theorem encoder_selection_order_counterexample :
    create_encoder_select true enumBoth ≠ specSelectEncoder true enumBoth
    ∧ create_encoder_select true enumBoth = some { activates := true, isAsync := false }
    ∧ specSelectEncoder true enumBoth = some { activates := true, isAsync := true } := by
  refine ⟨?_, rfl, rfl⟩
  decide

/-- Claim C2 (amended): at encoder construction with
`prefer_hardware = true`, the selection enumerates registered NV12-in /
H.264-out encoders filtering first for software sync transforms and then
for hardware async transforms, activating the first candidate whose
activation succeeds; with `prefer_hardware = false` only software sync
transforms are tried. -/
theorem encoder_selection_sync_then_hardware (preferHardware : Bool)
    (enum : MftEnumFlags → List MftCandidate) :
    create_encoder_select preferHardware enum
      = firstActivating
          (enum .syncSoftware ++ if preferHardware then enum .hardwareAsync else []) := by
  have hsel : ∀ fss : List MftEnumFlags,
      selectFromFlagSets enum fss
        = firstActivating (fss.foldr (fun fs acc => enum fs ++ acc) []) := by
    intro fss
    induction fss with
    | nil => rfl
    | cons fs rest ih =>
        show (match firstActivating (enum fs) with
              | some c => some c
              | none => selectFromFlagSets enum rest) = _
        rw [List.foldr_cons, firstActivating_append, ih]
  cases preferHardware with
  | false =>
      have h := hsel [MftEnumFlags.syncSoftware]
      simpa [create_encoder_select, encoderFlagSets] using h
  | true =>
      have h := hsel [MftEnumFlags.syncSoftware, MftEnumFlags.hardwareAsync]
      simpa [create_encoder_select, encoderFlagSets] using h

/-- Claim C3 (counterexample): when the encode pipeline fails to
initialize on the already-spawned encode-publish thread (i.e. after
`start_screen_share` returned success), the thread emits `on_error` and
returns before the loop — `on_stopped` is never invoked, so it does not
fire exactly once. -/
theorem on_stopped_zero_on_encoder_init_failure :
    (encodePublishCallbackTrace (.error "MFT encoder: SetOutputType failed") 0).count
      CallbackEvent.onStopped ≠ 1 := by
  decide

/-- Claim C3 (amended): over the lifetime of a session whose start call
returned successfully, `on_stopped` is invoked exactly once — at
encode-publish loop exit — when the encoder pipeline initializes
successfully; when the encoder fails to initialize, `on_error` is invoked
instead and `on_stopped` never fires. -/
theorem on_stopped_exactly_once_on_successful_init (init : Except String Unit) (k : Nat) :
    (encodePublishCallbackTrace init k).count CallbackEvent.onStopped
      = match init with | .ok _ => 1 | .error _ => 0 := by
  cases init with
  | ok u =>
      have h1 : (List.replicate k CallbackEvent.onStats).count CallbackEvent.onStopped = 0 := by
        rw [List.count_replicate]
        rfl
      have h2 : ([CallbackEvent.onStopped]).count CallbackEvent.onStopped = 1 := by decide
      simp [encodePublishCallbackTrace, List.count_append, h1, h2]
  | error e =>
      simp only [encodePublishCallbackTrace]
      rw [List.count_cons]
      simp only [List.count_nil]
      rfl

/-- Claim C4 (counterexample): a `JoinResponse` delivered 6000 ms after
the signaling channel opened — well past the claimed 5 s deadline — is
still accepted by the transport thread's join wait: the session does not
transition to Disconnected, because the wait loop reads no clock and has
no timeout. -/
theorem await_join_accepts_late_join :
    awaitJoin [(6000, SignalEvent.join { room := "room", participant := "pub" })]
      = .ok { room := "room", participant := "pub" } := rfl

/-- Claim C4 (amended): after the signaling channel is opened the
transport thread waits for the join event with no timeout: it returns the
first `JoinResponse` in the stream whenever one arrives, regardless of
arrival time, and fails only when the signaling channel closes without
one. -/
theorem await_join_characterization (events : List (Nat × SignalEvent)) :
    awaitJoin events
      = match firstJoin events with
        | some j => .ok j
        | none => .error "Signal closed before join" := by
  induction events with
  | nil => rfl
  | cons e rest ih =>
      obtain ⟨t, ev⟩ := e
      cases ev <;> simp [awaitJoin, firstJoin, ih]

/-- Claim C5: when the transport poll loop dispatches a keyframe-request
(PLI) event from the WebRTC driver, the source logs it and discards it —
no command is forwarded to the encode-publish thread, so its pending
force-keyframe flag is untouched and no IDR is forced.  This contradicts
the claim (and the source comment announces the forwarding as future
work), so the claim is recorded as a code bug; this theorem evaluates the
dispatch at the failing input. -/
theorem keyframe_request_dropped (s : PollState) (mid : Nat) (ls : LoopState) :
    dispatchRtcEvent s (RtcEvent.keyframeRequest mid) = (s, [])
    ∧ applyCommands ls (dispatchRtcEvent s (RtcEvent.keyframeRequest mid)).2 = ls :=
  ⟨rfl, rfl⟩

/-- Claim C6: the negotiated session / NV12 target dimensions are the
even-rounded first-frame dimensions (w if even, w+1 if odd; same for h),
hence always even, and the pipeline configuration carrying them is never
written after construction, so they stay unchanged for any number of
encoded frames.  The bounds exclude u32 overflow of the `+ 1`. -/
theorem session_dims_even_and_stable (w h fps bitrate : Nat)
    (hw : w + 1 < 2 ^ 32) (hh : h + 1 < 2 ^ 32) :
    sessionDims w h = ((if w % 2 = 0 then w else w + 1), (if h % 2 = 0 then h else h + 1))
    ∧ (sessionDims w h).1 % 2 = 0
    ∧ (sessionDims w h).2 % 2 = 0
    ∧ ∀ n : Nat,
        (encodeFrameStep^[n] (EncodePipeline.new
            { width := (sessionDims w h).1, height := (sessionDims w h).2,
              fps := fps, bitrate := bitrate, preferHardware := true })).config.width
          = (sessionDims w h).1
        ∧ (encodeFrameStep^[n] (EncodePipeline.new
            { width := (sessionDims w h).1, height := (sessionDims w h).2,
              fps := fps, bitrate := bitrate, preferHardware := true })).config.height
          = (sessionDims w h).2 := by
  refine ⟨?_, ?_, ?_, ?_⟩
  · unfold sessionDims
    rw [roundUpEven_eq w hw, roundUpEven_eq h hh]
  · exact roundUpEven_even w hw
  · exact roundUpEven_even h hh
  · intro n
    rw [encodeFrameStep_iterate_config]
    exact ⟨rfl, rfl⟩

/-- Witness for C6 at the odd capture dimensions 1919 x 1079 of the
boundary scenario in the spec: the session runs at 1920 x 1080. -/
theorem session_dims_even_and_stable_witness :
    1919 + 1 < 2 ^ 32
    ∧ 1079 + 1 < 2 ^ 32
    ∧ (sessionDims 1919 1079
        = ((if 1919 % 2 = 0 then 1919 else 1919 + 1), (if 1079 % 2 = 0 then 1079 else 1079 + 1))
       ∧ (sessionDims 1919 1079).1 % 2 = 0
       ∧ (sessionDims 1919 1079).2 % 2 = 0
       ∧ ∀ n : Nat,
          (encodeFrameStep^[n] (EncodePipeline.new
              { width := (sessionDims 1919 1079).1, height := (sessionDims 1919 1079).2,
                fps := 30, bitrate := 8000000, preferHardware := true })).config.width
            = (sessionDims 1919 1079).1
          ∧ (encodeFrameStep^[n] (EncodePipeline.new
              { width := (sessionDims 1919 1079).1, height := (sessionDims 1919 1079).2,
                fps := 30, bitrate := 8000000, preferHardware := true })).config.height
            = (sessionDims 1919 1079).2) :=
  ⟨by norm_num, by norm_num,
   session_dims_even_and_stable 1919 1079 30 8000000 (by norm_num) (by norm_num)⟩

/-- Claim C7: if force_keyframe() is called one or more times between two
consecutive encoded frames (one or more ForceKeyframe commands drained at
the loop head), the pending flag is set, the very next frame issues
exactly one force-IDR call to the video encoder — immediately before the
encode call — and the flag is cleared afterwards; redundant calls
coalesce into that single request. -/
theorem force_keyframe_coalesces (cmds : List EngineCommand) (s : LoopState)
    (hmem : EngineCommand.forceKeyframe ∈ cmds) (fps : Nat)
    (res : Except String (List EncodedPacket)) :
    (applyCommands s cmds).ep.forceNextKeyframe = true
    ∧ (processFrame fps res (applyCommands s cmds).ep).2.2
        = [EncoderCall.forceKeyframe, EncoderCall.encode]
    ∧ (processFrame fps res (applyCommands s cmds).ep).2.2.count EncoderCall.forceKeyframe = 1
    ∧ (processFrame fps res (applyCommands s cmds).ep).1.forceNextKeyframe = false := by
  have hflag := applyCommands_sets_force_flag cmds s hmem
  have hcalls := processFrame_flag_true_calls fps res (applyCommands s cmds).ep hflag
  refine ⟨hflag, hcalls.1, ?_, hcalls.2⟩
  rw [hcalls.1]
  decide

/-- Witness for C7: two redundant force-keyframe commands before one frame. -/
theorem force_keyframe_coalesces_witness :
    EngineCommand.forceKeyframe ∈ [EngineCommand.forceKeyframe, EngineCommand.forceKeyframe]
    ∧ ((applyCommands ⟨epState2, false⟩
          [EngineCommand.forceKeyframe, EngineCommand.forceKeyframe]).ep.forceNextKeyframe = true
       ∧ (processFrame 30 (.ok [pkt0]) (applyCommands ⟨epState2, false⟩
            [EngineCommand.forceKeyframe, EngineCommand.forceKeyframe]).ep).2.2
          = [EncoderCall.forceKeyframe, EncoderCall.encode]
       ∧ (processFrame 30 (.ok [pkt0]) (applyCommands ⟨epState2, false⟩
            [EngineCommand.forceKeyframe, EngineCommand.forceKeyframe]).ep).2.2.count
            EncoderCall.forceKeyframe = 1
       ∧ (processFrame 30 (.ok [pkt0]) (applyCommands ⟨epState2, false⟩
            [EngineCommand.forceKeyframe, EngineCommand.forceKeyframe]).ep).1.forceNextKeyframe
          = false) :=
  ⟨by decide,
   force_keyframe_coalesces [EngineCommand.forceKeyframe, EngineCommand.forceKeyframe]
     ⟨epState2, false⟩ (by decide) 30 (.ok [pkt0])⟩

/-- Claim C8 (counterexample): a server_url with scheme wss keeps scheme
wss in the built WebSocket URL, while the claim says any scheme other
than https — including wss — maps to ws. -/
theorem ws_scheme_wss_counterexample :
    (build_ws_url { scheme := "wss", host := "livekit.example", path := "/", query := [] }
        "0.1.0" "tok").scheme ≠ specMapWsScheme "wss"
    ∧ (build_ws_url { scheme := "wss", host := "livekit.example", path := "/", query := [] }
        "0.1.0" "tok").scheme = "wss"
    ∧ specMapWsScheme "wss" = "ws" := by
  refine ⟨?_, rfl, rfl⟩
  decide

/-- Claim C8 (amended): for every server_url accepted by the signaling
connector, the WebSocket URL maps scheme https or wss to wss and any
other scheme to ws, sets the path to /rtc, and appends the documented
query parameters (sdk, protocol=16, version, auto_subscribe=1,
adaptive_stream=0, access_token) to the existing query. -/
theorem build_ws_url_properties (url : ParsedUrl) (version token : String) :
    (build_ws_url url version token).scheme
      = (if url.scheme = "https" ∨ url.scheme = "wss" then "wss" else "ws")
    ∧ (build_ws_url url version token).path = "/rtc"
    ∧ (build_ws_url url version token).query = url.query ++ wsQueryParams version token
    ∧ (build_ws_url url version token).host = url.host :=
  ⟨rfl, rfl, rfl, rfl⟩

/-- Claim C10: the engine stop flag is monotone — every write site stores
true, so once is_running has returned false, it returns false at every
later point no matter which further stores occur, and the host-visible
is_screen_share_running for that engine stays false as well. -/
theorem stop_flag_monotone (flag : Bool) (hstopped : isRunning flag = false)
    (ws : List StopFlagWrite) :
    (∀ w, stopFlagStoredValue w = true)
    ∧ isRunning (ws.foldl applyStopFlagWrite flag) = false
    ∧ is_screen_share_running (some (ws.foldl applyStopFlagWrite flag)) = false := by
  have hflag : flag = true := by
    cases flag
    · simp [isRunning] at hstopped
    · rfl
  have hfold : ws.foldl applyStopFlagWrite flag = true := stopFlag_foldl_true ws flag hflag
  refine ⟨fun w => by cases w <;> rfl, ?_, ?_⟩
  · rw [hfold]; rfl
  · rw [hfold]; rfl

/-- Witness for C10: a stopped engine stays stopped across further stores. -/
theorem stop_flag_monotone_witness :
    isRunning true = false
    ∧ ((∀ w, stopFlagStoredValue w = true)
       ∧ isRunning ([StopFlagWrite.engineStop, StopFlagWrite.commandStop].foldl
            applyStopFlagWrite true) = false
       ∧ is_screen_share_running (some ([StopFlagWrite.engineStop,
            StopFlagWrite.commandStop].foldl applyStopFlagWrite true)) = false) :=
  ⟨by decide,
   stop_flag_monotone true (by decide) [StopFlagWrite.engineStop, StopFlagWrite.commandStop]⟩

end Migo
